import Mathlib

/-!
Verification of the message-forwarding relay bot (`bot.py`).

The development shallowly embeds the parts of the program the claims are
about:

* a JSON value model (`JVal`/`JArr`/`JObj`) mirroring what `json.load`
  produces (parsed objects have unique keys, since Python dicts collapse
  duplicates), together with Python semantics of `dict.get`, truthiness
  and `in`;
* `dumpsSorted`, the canonical serialization `json.dumps(v, sort_keys=True)`
  used by the scheduled config refresh to compare documents (string
  escaping is elided; keys are sorted in code-point order, as in Python);
* the in-memory module globals as a record `BotState`, the startup loading
  and sanity checks (`startupLoad`), the `/update` handler (`cmd_update`),
  the scheduled config-check body (`auto_tasks_step`) and the two
  field-merge appliers they use;
* the code self-upgrade `safe_upgrade_from_raw` over an explicit
  three-file filesystem state `FS` (current file, backup, temp), with an
  injected-fault model for the three rotation operations (Python
  `os.remove`/`os.replace` raise on failure and, being single renames,
  are modeled as leaving the filesystem unchanged when they fail);
* the retry/backoff loop `forward_with_retry` as a trace-producing
  function driven by an oracle giving the outcome of each delivery
  attempt (success, `FloodWaitError` with a mandated wait, or a generic
  exception).

Network fetches, JSON parsing and the chat platform are external
collaborators; they enter as `Except`-valued parameters.
-/

/-! ## JSON model -/

mutual
/-- A parsed JSON value, as produced by Python's `json.load`/`json.loads`.
Numbers are modeled as integers (the config documents hold ids, counts and
hours). Python `None` coincides with JSON `null` (`jnull`). -/
inductive JVal where
  | jnull : JVal
  | jbool : Bool → JVal
  | jnum : Int → JVal
  | jstr : String → JVal
  | jarr : JArr → JVal
  | jobj : JObj → JVal
deriving DecidableEq
/-- Spine of a JSON array. -/
inductive JArr where
  | nil : JArr
  | cons : JVal → JArr → JArr
deriving DecidableEq
/-- Spine of a JSON object: an ordered list of key/value pairs.  A document
parsed by Python has pairwise-distinct keys (dicts collapse duplicates). -/
inductive JObj where
  | nil : JObj
  | cons : String → JVal → JObj → JObj
deriving DecidableEq
end

/-- Lookup of a key in a parsed object (Python `d[k]` / `k in d`). -/
def jobjLookup : JObj → String → Option JVal
  | .nil, _ => none
  | .cons k v tl, key => if key = k then some v else jobjLookup tl key

/-- Python `d.get(key, default)`: the stored value when the key is present
(even when that value is `null`), the default otherwise. -/
def dictGet (doc : JObj) (key : String) (default : JVal) : JVal :=
  match jobjLookup doc key with
  | some v => v
  | none => default

/-- The key/value pairs of an object, as a Lean list. -/
def jobjToList : JObj → List (String × JVal)
  | .nil => []
  | .cons k v tl => (k, v) :: jobjToList tl

/-- Python truthiness of a JSON value (`if not x`): `None`, `False`, `0`,
`""`, `[]` and `{}` are falsy. -/
def pyTruthy : JVal → Bool
  | .jnull => false
  | .jbool b => b
  | .jnum n => if n = 0 then false else true
  | .jstr s => if s = "" then false else true
  | .jarr .nil => false
  | .jarr (.cons _ _) => true
  | .jobj .nil => false
  | .jobj (.cons _ _ _) => true

/-- Membership of a value in a JSON array (Python `x in xs`). -/
def jarrMem (x : JVal) : JArr → Bool
  | .nil => false
  | .cons v tl => if x = v then true else jarrMem x tl

/-- Python `x in l` for a JSON value `l`; the admin list is a JSON array. -/
def pyIn (x : JVal) : JVal → Bool
  | .jarr xs => jarrMem x xs
  | _ => false

/-- The sender id obtained by `getattr(sender, "id", None)`, as a JSON-level
value: an integer id, or `None` when absent. -/
def senderToJVal : Option Int → JVal
  | some i => .jnum i
  | none => .jnull

/-- The string content of a JSON value that is a string (config URLs are
JSON strings); used where the Python code passes a config string onward. -/
def jvalStr : JVal → String
  | .jstr s => s
  | _ => ""

/-! ## Canonical serialization (`json.dumps(v, sort_keys=True)`)

Python sorts object keys in code-point order.  `String`'s built-in order
is byte-level and opaque to the kernel, so keys are compared through their
character lists, whose lexicographic order (by code point) is both
kernel-computable and provably a linear order. -/

/-- Order on rendered key/value pairs: by key, in code-point
lexicographic order — the order `sort_keys=True` sorts by. -/
def keyLE (a b : String × String) : Prop := a.1.data ≤ b.1.data

instance : DecidableRel keyLE := fun a b => inferInstanceAs (Decidable (a.1.data ≤ b.1.data))

instance : IsTotal (String × String) keyLE := ⟨fun a b => le_total a.1.data b.1.data⟩

instance : IsTrans (String × String) keyLE := ⟨fun _ _ _ h1 h2 => le_trans h1 h2⟩

mutual
/-- `json.dumps(v, sort_keys=True)` with default separators: object items
are sorted by key before rendering.  String escaping is elided (no claim
depends on it); everything else follows Python's renderer. -/
def dumpsSorted : JVal → String
  | .jnull => "null"
  | .jbool true => "true"
  | .jbool false => "false"
  | .jnum n => toString n
  | .jstr s => "\"" ++ s ++ "\""
  | .jarr xs => "[" ++ String.intercalate ", " (dumpsArr xs) ++ "]"
  | .jobj kvs =>
      "\x7b" ++ String.intercalate ", "
        ((List.insertionSort keyLE (dumpsObj kvs)).map
          (fun p => "\"" ++ p.1 ++ "\": " ++ p.2)) ++ "\x7d"
termination_by structural v => v
/-- Renders each element of an array. -/
def dumpsArr : JArr → List String
  | .nil => []
  | .cons v tl => dumpsSorted v :: dumpsArr tl
termination_by structural xs => xs
/-- Renders each value of an object, keeping the key alongside. -/
def dumpsObj : JObj → List (String × String)
  | .nil => []
  | .cons k v tl => (k, dumpsSorted v) :: dumpsObj tl
termination_by structural kvs => kvs
end

/-! ## In-memory state and config operations -/

/-- The module-level globals of `bot.py` that hold configuration (lines
50-61).  `config` is the raw parsed document; the named fields cache
individual entries exactly as the assignments at startup do. -/
structure BotState where
  config : JObj
  API_ID : JVal
  API_HASH : JVal
  SESSION_NAME : JVal
  SOURCE_CHANNEL : JVal
  TARGET_CHANNEL : JVal
  LOG_CHANNEL : JVal
  CONFIG_RAW_URL : JVal
  BOT_RAW_URL : JVal
  AUTO_UPDATE_HOURS : JVal
  ADMIN_USER_IDS : JVal
  VIDEOS : JVal
  RETRY_MAX : JVal
deriving DecidableEq

/-- Replies the command handlers send back to the issuing user. -/
inductive Reply where
  | notAuthorized : Reply
  | noConfigUrl : Reply
  | fetchingConfig : Reply
  | configUpdated : Reply
  | updateFailed : String → Reply
  | noBotUrl : Reply
  | fetchingCode : Reply
  | upgraded : Reply
  | upgradeFailed : String → Reply
  | stopping : Reply
deriving DecidableEq

/-- Startup loading of `config.json` (lines 46-69): reads each field with
its default, then runs the sanity checks — `api_id`/`api_hash` must be
truthy and the three channel ids must not be `None`, else the process
exits (`.error`). -/
def startupLoad (doc : JObj) : Except String BotState :=
  let api_id := dictGet doc "api_id" .jnull
  let api_hash := dictGet doc "api_hash" .jnull
  let source := dictGet doc "source_channel" .jnull
  let target := dictGet doc "target_channel" .jnull
  let log := dictGet doc "log_channel" .jnull
  if pyTruthy api_id = false ∨ pyTruthy api_hash = false then
    .error "api_id / api_hash missing in config.json. Fill them and restart."
  else if source = .jnull ∨ target = .jnull ∨ log = .jnull then
    .error "source_channel / target_channel / log_channel must be set in config.json."
  else
    .ok
      { config := doc
        API_ID := api_id
        API_HASH := api_hash
        SESSION_NAME := dictGet doc "session_name" (.jstr "forward_session")
        SOURCE_CHANNEL := source
        TARGET_CHANNEL := target
        LOG_CHANNEL := log
        CONFIG_RAW_URL := dictGet doc "config_raw_url" (.jstr "")
        BOT_RAW_URL := dictGet doc "bot_raw_url" (.jstr "")
        AUTO_UPDATE_HOURS := dictGet doc "auto_update_hours" (.jnum 3)
        ADMIN_USER_IDS := dictGet doc "admin_user_ids" (.jarr .nil)
        VIDEOS := dictGet doc "youtube_links" (.jarr .nil)
        RETRY_MAX := dictGet doc "max_retry" (.jnum 3) }

/-- The in-memory apply of a freshly written config in `cmd_update`
(lines 190-197): replaces the raw `config` mapping and re-reads the six
named globals declared there, each defaulting to its prior value when the
new document lacks the key. -/
def applyConfigManual (st : BotState) (newCfg : JObj) : BotState :=
  { st with
    config := newCfg
    SOURCE_CHANNEL := dictGet newCfg "source_channel" st.SOURCE_CHANNEL
    TARGET_CHANNEL := dictGet newCfg "target_channel" st.TARGET_CHANNEL
    LOG_CHANNEL := dictGet newCfg "log_channel" st.LOG_CHANNEL
    VIDEOS := dictGet newCfg "youtube_links" st.VIDEOS
    RETRY_MAX := dictGet newCfg "max_retry" st.RETRY_MAX
    AUTO_UPDATE_HOURS := dictGet newCfg "auto_update_hours" st.AUTO_UPDATE_HOURS }

/-- The in-memory apply in the scheduled path `auto_tasks` (lines 272-278):
same as the manual apply except that its `global` list omits
`AUTO_UPDATE_HOURS`, which is therefore not refreshed. -/
def applyConfigScheduled (st : BotState) (newCfg : JObj) : BotState :=
  { st with
    config := newCfg
    SOURCE_CHANNEL := dictGet newCfg "source_channel" st.SOURCE_CHANNEL
    TARGET_CHANNEL := dictGet newCfg "target_channel" st.TARGET_CHANNEL
    LOG_CHANNEL := dictGet newCfg "log_channel" st.LOG_CHANNEL
    VIDEOS := dictGet newCfg "youtube_links" st.VIDEOS
    RETRY_MAX := dictGet newCfg "max_retry" st.RETRY_MAX }

/-- The `/update` handler (lines 171-201).  `disk` is the parsed content of
`config.json` on disk; `senderId` is `getattr(sender, "id", None)`;
`remote` is the combined result of `fetch_text(CONFIG_RAW_URL)` and
`json.loads` (any exception in the `try` block surfaces as `.error`).
Returns the replies sent, the new in-memory state and the new on-disk
document.  The write to disk goes through write-temp-then-`os.replace`,
modeled as one atomic replacement of the document. -/
def cmd_update (st : BotState) (disk : JObj) (senderId : Option Int)
    (remote : Except String JObj) : List Reply × BotState × JObj :=
  if pyTruthy st.ADMIN_USER_IDS = true ∧ pyIn (senderToJVal senderId) st.ADMIN_USER_IDS = false then
    ([.notAuthorized], st, disk)
  else if pyTruthy st.CONFIG_RAW_URL = false then
    ([.noConfigUrl], st, disk)
  else
    match remote with
    | .error e => ([.fetchingConfig, .updateFailed e], st, disk)
    | .ok newCfg =>
        ([.fetchingConfig, .configUpdated], applyConfigManual st newCfg, newCfg)

/-- One config-check iteration of the background loop `auto_tasks`
(lines 260-281): when a config URL is set and the fetch+parse succeeds,
the canonical serializations of the remote and on-disk documents are
compared; only when they differ is the document written (atomic replace)
and applied via the scheduled apply.  The third component records whether
a write occurred.  Fetch/parse errors are logged and swallowed. -/
def auto_tasks_step (st : BotState) (disk : JObj)
    (remote : Except String JObj) : BotState × JObj × Bool :=
  if pyTruthy st.CONFIG_RAW_URL = false then (st, disk, false)
  else
    match remote with
    | .error _ => (st, disk, false)
    | .ok newCfg =>
        if dumpsSorted (.jobj newCfg) ≠ dumpsSorted (.jobj disk) then
          (applyConfigScheduled st newCfg, newCfg, true)
        else (st, disk, false)

/-! ## Code self-upgrade -/

/-- The three on-disk artifacts involved in a code upgrade: the current
`bot.py`, the backup `bot.py.bak` and the temporary `bot.py.new`.  `none`
means the path does not exist. -/
structure FS where
  botFile : Option String
  botBak : Option String
  botTmp : Option String
deriving DecidableEq

/-- Injected environmental failures for the three filesystem operations of
the rotation (e.g. permission errors).  `os.remove`/`os.replace` are single
unlink/rename calls, so a failed operation leaves the filesystem
unchanged; `os.replace` also fails when its source path is missing. -/
structure Faults where
  failRemoveBak : Bool
  failRenameToBak : Bool
  failRenameTmpToFile : Bool
deriving DecidableEq

/-- The errors `safe_upgrade_from_raw` raises (`RuntimeError` messages). -/
inductive UpErr where
  | noUrl : UpErr
  | downloadFailed : String → UpErr
  | tooSmall : UpErr
  | replaceFailed : UpErr
deriving DecidableEq

/-- The rotation inside the `try` of `safe_upgrade_from_raw` (lines
218-222): remove a stale backup when present, rename current → backup,
rename temp → current.  Returns the filesystem state reached and whether
an exception occurred. -/
def upgradeRotation (fl : Faults) (fs : FS) : FS × Bool :=
  match (if fs.botBak.isSome then (if fl.failRemoveBak then none else some { fs with botBak := none }) else some fs) with
  | none => (fs, true)
  | some fs1 =>
    match fs1.botFile with
    | none => (fs1, true)
    | some cur =>
      if fl.failRenameToBak then (fs1, true)
      else
        let fs2 : FS := { botFile := none, botBak := some cur, botTmp := fs1.botTmp }
        match fs2.botTmp with
        | none => (fs2, true)
        | some tmp =>
          if fl.failRenameTmpToFile then (fs2, true)
          else ({ botFile := some tmp, botBak := some cur, botTmp := none }, false)

/-- `safe_upgrade_from_raw(url)` (lines 204-228): URL check, download,
minimum-size check, write to the temp path, rotation; on a rotation
exception, rollback (`os.replace(BOT_BAK, BOT_FILE)`) when a backup exists
and the current file does not, then surface the replace error.  The
rollback rename's source exists in that branch, so it is modeled as
succeeding.  Returns the outcome and the final filesystem state. -/
def safe_upgrade_from_raw (url : String) (fetched : Except String String)
    (fl : Faults) (fs : FS) : Except UpErr Unit × FS :=
  if url = "" then (.error .noUrl, fs)
  else
    match fetched with
    | .error e => (.error (.downloadFailed e), fs)
    | .ok text =>
      if text = "" ∨ text.length < 20 then (.error .tooSmall, fs)
      else
        let fs' : FS := { fs with botTmp := some text }
        match upgradeRotation fl fs' with
        | (fsf, false) => (.ok (), fsf)
        | (fsf, true) =>
          if fsf.botBak.isSome ∧ fsf.botFile.isNone then
            (.error .replaceFailed,
              { botFile := fsf.botBak, botBak := none, botTmp := fsf.botTmp })
          else (.error .replaceFailed, fsf)

/-- The `/upgrade` handler (lines 232-252): admin gate, URL gate, then
`safe_upgrade_from_raw`; on success the process re-executes itself
(`os.execv`), recorded by the final boolean. -/
def cmd_upgrade (st : BotState) (fs : FS) (senderId : Option Int)
    (fetched : Except String String) (fl : Faults) : List Reply × FS × Bool :=
  if pyTruthy st.ADMIN_USER_IDS = true ∧ pyIn (senderToJVal senderId) st.ADMIN_USER_IDS = false then
    ([.notAuthorized], fs, false)
  else if pyTruthy st.BOT_RAW_URL = false then
    ([.noBotUrl], fs, false)
  else
    match safe_upgrade_from_raw (jvalStr st.BOT_RAW_URL) fetched fl fs with
    | (.ok _, fs') => ([.fetchingCode, .upgraded], fs', true)
    | (.error _, fs') => ([.fetchingCode, .upgradeFailed "Upgrade failed"], fs', false)

/-- The `/stop` handler (lines 297-307): admin gate, then disconnect and
stop the event loop; the boolean records whether a disconnect happened. -/
def cmd_stop (st : BotState) (senderId : Option Int) : List Reply × Bool :=
  if pyTruthy st.ADMIN_USER_IDS = true ∧ pyIn (senderToJVal senderId) st.ADMIN_USER_IDS = false then
    ([.notAuthorized], false)
  else ([.stopping], true)

/-! ## Forwarding with retry -/

/-- Outcome of one delivery attempt (`client.forward_messages`): success,
a `FloodWaitError` carrying the mandated wait in seconds, or any other
exception with its description. -/
inductive Outcome where
  | success : Outcome
  | floodWait : Nat → Outcome
  | generic : String → Outcome
deriving DecidableEq

/-- Observable events of one `forward_with_retry` task, in order: delivery
attempts, sleeps (with duration in seconds), and the three log lines it
can emit.  The success and permanent-failure log lines carry the message
id and host identity interpolated into their text (lines 101-104, 116). -/
inductive Ev where
  | attempt : Nat → Ev
  | sleep : Nat → Ev
  | successLog : String → String → String → String → Ev
  | floodLog : Nat → String → Nat → Ev
  | errorLog : Nat → String → String → Ev
  | permFailLog : Nat → String → String → Ev
deriving DecidableEq

/-- The loop body of `forward_with_retry` (lines 96-117), as a trace of
events.  `o` gives the outcome of the attempt with each number;
`remaining` counts loop iterations left in `range(1, RETRY_MAX + 1)` and
`attempt` is the current attempt number.  When the iterations are
exhausted the permanent-failure line is logged. -/
def forwardLoop (o : Nat → Outcome) (source target msgId host : String)
    (retryMax : Nat) : Nat → Nat → List Ev
  | 0, _ => [.permFailLog retryMax msgId host]
  | remaining + 1, attempt =>
    match o attempt with
    | .success => [.attempt attempt, .successLog source target msgId host]
    | .floodWait w =>
        .attempt attempt :: .floodLog attempt msgId w :: .sleep (w + 1) ::
          forwardLoop o source target msgId host retryMax remaining (attempt + 1)
    | .generic e =>
        .attempt attempt :: .errorLog attempt msgId e :: .sleep (2 ^ attempt) ::
          forwardLoop o source target msgId host retryMax remaining (attempt + 1)

/-- `forward_with_retry` (lines 93-117): attempts run from 1 to
`RETRY_MAX` inclusive. -/
def forward_with_retry (o : Nat → Outcome) (source target msgId host : String)
    (retryMax : Nat) : List Ev :=
  forwardLoop o source target msgId host retryMax retryMax 1

/-- Recognizes delivery-attempt events. -/
def isAttempt : Ev → Bool
  | .attempt _ => true
  | _ => false

/-- Recognizes sleep events. -/
def isSleep : Ev → Bool
  | .sleep _ => true
  | _ => false

/-- Recognizes success log lines. -/
def isSuccessLog : Ev → Bool
  | .successLog _ _ _ _ => true
  | _ => false

/-- Recognizes permanent-failure log lines. -/
def isPermFailLog : Ev → Bool
  | .permFailLog _ _ _ => true
  | _ => false

/-! ## Trace lemmas for the forwarding loop -/

/-- With at least one iteration left, the loop's next event is the
delivery attempt with the current attempt number. -/
theorem forwardLoop_attempt_cons (o : Nat → Outcome) (s t m h : String) (r n a : Nat) :
    ∃ tail, forwardLoop o s t m h r (n + 1) a = .attempt a :: tail := by
  cases ho : o a with
  | success => exact ⟨[.successLog s t m h], by simp [forwardLoop, ho]⟩
  | floodWait w =>
      exact ⟨.floodLog a m w :: .sleep (w + 1) :: forwardLoop o s t m h r n (a + 1),
        by simp [forwardLoop, ho]⟩
  | generic e =>
      exact ⟨.errorLog a m e :: .sleep (2 ^ a) :: forwardLoop o s t m h r n (a + 1),
        by simp [forwardLoop, ho]⟩

/-- If every attempt from `a` up to (excluding) `b` fails, the loop's trace
from attempt `a` is a prefix followed by the trace from attempt `b` (with
correspondingly fewer iterations left). -/
theorem forwardLoop_reach (o : Nat → Outcome) (s t m h : String) (r : Nat) :
    ∀ n a b, a ≤ b → b ≤ a + n → (∀ j, a ≤ j → j < b → o j ≠ .success) →
    ∃ pre, forwardLoop o s t m h r n a =
      pre ++ forwardLoop o s t m h r (n - (b - a)) b := by
  intro n
  induction n with
  | zero =>
    intro a b hab hba _
    have hba' : b = a := by omega
    subst hba'
    exact ⟨[], by simp⟩
  | succ n ih =>
    intro a b hab hba hfail
    rcases Nat.eq_or_lt_of_le hab with heq | hlt
    · subst heq
      exact ⟨[], by simp⟩
    · have hne := hfail a le_rfl hlt
      have harith : n + 1 - (b - a) = n - (b - (a + 1)) := by omega
      cases ho : o a with
      | success => exact absurd ho hne
      | floodWait w =>
        obtain ⟨pre, hpre⟩ := ih (a + 1) b hlt (by omega) (fun j h1 h2 => hfail j (by omega) h2)
        refine ⟨.attempt a :: .floodLog a m w :: .sleep (w + 1) :: pre, ?_⟩
        simp [forwardLoop, ho, hpre, harith]
      | generic e =>
        obtain ⟨pre, hpre⟩ := ih (a + 1) b hlt (by omega) (fun j h1 h2 => hfail j (by omega) h2)
        refine ⟨.attempt a :: .errorLog a m e :: .sleep (2 ^ a) :: pre, ?_⟩
        simp [forwardLoop, ho, hpre, harith]

/-- When every attempt in the window fails, the loop performs exactly one
attempt per iteration, logs no success, and ends in exactly one
permanent-failure line carrying the retry ceiling, message id and host. -/
theorem forwardLoop_allFail (o : Nat → Outcome) (s t m h : String) (r : Nat) :
    ∀ n a, (∀ j, a ≤ j → j < a + n → o j ≠ .success) →
      List.countP isAttempt (forwardLoop o s t m h r n a) = n ∧
      List.countP isPermFailLog (forwardLoop o s t m h r n a) = 1 ∧
      List.countP isSuccessLog (forwardLoop o s t m h r n a) = 0 ∧
      ∃ pre, forwardLoop o s t m h r n a = pre ++ [.permFailLog r m h] := by
  intro n
  induction n with
  | zero =>
    intro a _
    exact ⟨rfl, rfl, rfl, ⟨[], rfl⟩⟩
  | succ n ih =>
    intro a hfail
    have hne := hfail a le_rfl (by omega)
    cases ho : o a with
    | success => exact absurd ho hne
    | floodWait w =>
      obtain ⟨h1, h2, h3, pre, hpre⟩ := ih (a + 1) (fun j hj1 hj2 => hfail j (by omega) (by omega))
      refine ⟨?_, ?_, ?_, ⟨.attempt a :: .floodLog a m w :: .sleep (w + 1) :: pre, ?_⟩⟩
      · simp [forwardLoop, ho, List.countP_cons, isAttempt, h1]
      · simp [forwardLoop, ho, List.countP_cons, isPermFailLog, h2]
      · simp [forwardLoop, ho, List.countP_cons, isSuccessLog, h3]
      · simp [forwardLoop, ho, hpre]
    | generic e =>
      obtain ⟨h1, h2, h3, pre, hpre⟩ := ih (a + 1) (fun j hj1 hj2 => hfail j (by omega) (by omega))
      refine ⟨?_, ?_, ?_, ⟨.attempt a :: .errorLog a m e :: .sleep (2 ^ a) :: pre, ?_⟩⟩
      · simp [forwardLoop, ho, List.countP_cons, isAttempt, h1]
      · simp [forwardLoop, ho, List.countP_cons, isPermFailLog, h2]
      · simp [forwardLoop, ho, List.countP_cons, isSuccessLog, h3]
      · simp [forwardLoop, ho, hpre]

/-- When the first success in the window is at attempt `k`, the loop logs
exactly one success line, performs attempts `a..k` (and none after), logs
no permanent failure, and its trace ends right after the success log. -/
theorem forwardLoop_success (o : Nat → Outcome) (s t m h : String) (r : Nat) :
    ∀ n a k, a ≤ k → k < a + n → o k = .success →
      (∀ j, a ≤ j → j < k → o j ≠ .success) →
      List.countP isSuccessLog (forwardLoop o s t m h r n a) = 1 ∧
      List.countP isAttempt (forwardLoop o s t m h r n a) = k + 1 - a ∧
      List.countP isPermFailLog (forwardLoop o s t m h r n a) = 0 ∧
      ∃ pre, forwardLoop o s t m h r n a = pre ++ [.attempt k, .successLog s t m h] := by
  intro n
  induction n with
  | zero => intro a k h1 h2 _ _; omega
  | succ n ih =>
    intro a k hak hka hsucc hfail
    rcases Nat.eq_or_lt_of_le hak with heq | hlt
    · subst heq
      refine ⟨?_, ?_, ?_, ⟨[], ?_⟩⟩
      · simp [forwardLoop, hsucc, List.countP_cons, isSuccessLog, isAttempt]
      · simp [forwardLoop, hsucc, List.countP_cons, isSuccessLog, isAttempt]
      · simp [forwardLoop, hsucc, List.countP_cons, isPermFailLog, isSuccessLog, isAttempt]
      · simp [forwardLoop, hsucc]
    · have hne := hfail a le_rfl hlt
      cases ho : o a with
      | success => exact absurd ho hne
      | floodWait w =>
        obtain ⟨h1, h2, h3, pre, hpre⟩ :=
          ih (a + 1) k hlt (by omega) hsucc (fun j hj1 hj2 => hfail j (by omega) hj2)
        refine ⟨?_, ?_, ?_, ⟨.attempt a :: .floodLog a m w :: .sleep (w + 1) :: pre, ?_⟩⟩
        · simp [forwardLoop, ho, List.countP_cons, isSuccessLog, isAttempt, h1]
        · simp [forwardLoop, ho, List.countP_cons, isAttempt, h2]
          omega
        · simp [forwardLoop, ho, List.countP_cons, isPermFailLog, h3]
        · simp [forwardLoop, ho, hpre]
      | generic e =>
        obtain ⟨h1, h2, h3, pre, hpre⟩ :=
          ih (a + 1) k hlt (by omega) hsucc (fun j hj1 hj2 => hfail j (by omega) hj2)
        refine ⟨?_, ?_, ?_, ⟨.attempt a :: .errorLog a m e :: .sleep (2 ^ a) :: pre, ?_⟩⟩
        · simp [forwardLoop, ho, List.countP_cons, isSuccessLog, isAttempt, h1]
        · simp [forwardLoop, ho, List.countP_cons, isAttempt, h2]
          omega
        · simp [forwardLoop, ho, List.countP_cons, isPermFailLog, h3]
        · simp [forwardLoop, ho, hpre]

/-! ## Fixtures: concrete attempt oracles -/

/-- Attempt outcomes for the end-to-end scenario of the spec: two generic
failures, then success on the third attempt. -/
def scenarioOracle : Nat → Outcome
  | 1 => .generic "error one"
  | 2 => .generic "error two"
  | _ => .success

/-- Attempt outcomes where every delivery fails with a generic error. -/
def genericOracle : Nat → Outcome := fun _ => .generic "boom"

/-- Attempt outcomes with a rate-limit (mandated wait 7s) on the first
attempt, then success. -/
def floodOracle : Nat → Outcome
  | 1 => .floodWait 7
  | _ => .success

/-! ## Claims C1-C3: retry/backoff pipeline -/

/-- Claim C1: after a generic failure of attempt `k - 1`, the pipeline
sleeps exactly `2 ^ (k - 1)` seconds immediately before attempt `k`
(delays 2s, 4s, 8s, … before attempts 2, 3, 4, …); and in the end-to-end
scenario with `max_retry = 3` and two generic failures followed by
success, the trace has exactly the two backoff sleeps of 2s and 4s, one
success log line and no permanent-failure line. -/
theorem claim_c1_generic_backoff (o : Nat → Outcome) (s t m h : String)
    (r k : Nat) (e : String) (hk2 : 2 ≤ k) (hkr : k ≤ r)
    (hprev : ∀ j, 1 ≤ j → j < k - 1 → o j ≠ .success)
    (hgen : o (k - 1) = .generic e) :
    (∃ pre post, forward_with_retry o s t m h r =
        pre ++ .sleep (2 ^ (k - 1)) :: .attempt k :: post) ∧
    (List.filter isSleep (forward_with_retry scenarioOracle "src" "tgt" "42" "host" 3) =
        [.sleep 2, .sleep 4] ∧
      List.countP isSuccessLog (forward_with_retry scenarioOracle "src" "tgt" "42" "host" 3) = 1 ∧
      List.countP isPermFailLog (forward_with_retry scenarioOracle "src" "tgt" "42" "host" 3) = 0) := by
  constructor
  · have hk1 : k - 1 + 1 = k := by omega
    obtain ⟨pre, hpre⟩ :=
      forwardLoop_reach o s t m h r r 1 (k - 1) (by omega) (by omega) hprev
    have hm : r - (k - 1 - 1) = (r - k) + 1 + 1 := by omega
    rw [hm] at hpre
    obtain ⟨tail, htail⟩ := forwardLoop_attempt_cons o s t m h r (r - k) k
    refine ⟨pre ++ [.attempt (k - 1), .errorLog (k - 1) m e], tail, ?_⟩
    rw [forward_with_retry, hpre]
    have hstep : forwardLoop o s t m h r ((r - k) + 1 + 1) (k - 1) =
        .attempt (k - 1) :: .errorLog (k - 1) m e :: .sleep (2 ^ (k - 1)) ::
          forwardLoop o s t m h r ((r - k) + 1) (k - 1 + 1) := by
      simp [forwardLoop, hgen]
    rw [hstep, hk1, htail]
    simp
  · exact ⟨by decide, by decide, by decide⟩

/-- Claim C1, instantiated: in the two-failures-then-success scenario the
sleep of `2 ^ 2 = 4` seconds immediately precedes attempt 3. -/
theorem claim_c1_generic_backoff_witness :
    ∃ pre post, forward_with_retry scenarioOracle "src" "tgt" "42" "host" 3 =
      pre ++ .sleep (2 ^ (3 - 1)) :: .attempt 3 :: post :=
  (claim_c1_generic_backoff scenarioOracle "src" "tgt" "42" "host" 3 3 "error two"
    (by omega) (by omega)
    (by intro j h1 h2
        have hj : j = 1 := by omega
        subst hj
        decide)
    (by decide)).1

/-- Claim C2: when every attempt fails, the pipeline makes exactly
`max_retry` attempts, then emits exactly one permanent-failure log line
(carrying the message id and host identity) as its final event; when the
first success is at attempt `k`, exactly one success log line is emitted,
exactly `k` attempts occur (none after the success), and no
permanent-failure line is emitted. -/
theorem claim_c2_terminal_outcomes (o : Nat → Outcome) (s t m h : String) (r : Nat) :
    ((∀ j, 1 ≤ j → j ≤ r → o j ≠ .success) →
      List.countP isAttempt (forward_with_retry o s t m h r) = r ∧
      List.countP isPermFailLog (forward_with_retry o s t m h r) = 1 ∧
      ∃ pre, forward_with_retry o s t m h r = pre ++ [.permFailLog r m h]) ∧
    (∀ k, 1 ≤ k → k ≤ r → o k = .success →
      (∀ j, 1 ≤ j → j < k → o j ≠ .success) →
      List.countP isSuccessLog (forward_with_retry o s t m h r) = 1 ∧
      List.countP isAttempt (forward_with_retry o s t m h r) = k ∧
      List.countP isPermFailLog (forward_with_retry o s t m h r) = 0 ∧
      ∃ pre, forward_with_retry o s t m h r = pre ++ [.attempt k, .successLog s t m h]) := by
  constructor
  · intro hfail
    obtain ⟨h1, h2, _, hend⟩ :=
      forwardLoop_allFail o s t m h r r 1 (fun j hj1 hj2 => hfail j hj1 (by omega))
    exact ⟨h1, h2, hend⟩
  · intro k hk1 hkr hsucc hfail
    obtain ⟨h1, h2, h3, hend⟩ :=
      forwardLoop_success o s t m h r r 1 k hk1 (by omega) hsucc (fun j hj1 hj2 => hfail j hj1 hj2)
    have hk : k + 1 - 1 = k := by omega
    rw [hk] at h2
    exact ⟨h1, h2, h3, hend⟩

/-- Claim C2, instantiated: with `max_retry = 2` and every attempt failing
generically there are exactly 2 attempts and one permanent-failure line;
in the two-failures-then-success scenario with `max_retry = 3` there is
exactly one success line, 3 attempts and no permanent-failure line. -/
theorem claim_c2_terminal_outcomes_witness :
    (List.countP isAttempt (forward_with_retry genericOracle "s" "t" "9" "h" 2) = 2 ∧
      List.countP isPermFailLog (forward_with_retry genericOracle "s" "t" "9" "h" 2) = 1) ∧
    (List.countP isSuccessLog (forward_with_retry scenarioOracle "src" "tgt" "42" "host" 3) = 1 ∧
      List.countP isAttempt (forward_with_retry scenarioOracle "src" "tgt" "42" "host" 3) = 3 ∧
      List.countP isPermFailLog (forward_with_retry scenarioOracle "src" "tgt" "42" "host" 3) = 0) := by
  constructor
  · have H := (claim_c2_terminal_outcomes genericOracle "s" "t" "9" "h" 2).1
      (by intro j h1 h2; nofun)
    exact ⟨H.1, H.2.1⟩
  · have H := (claim_c2_terminal_outcomes scenarioOracle "src" "tgt" "42" "host" 3).2 3
      (by omega) (by omega) (by decide)
      (by intro j h1 h2
          have hj : j = 1 ∨ j = 2 := by omega
          rcases hj with hj | hj <;> subst hj <;> decide)
    exact ⟨H.1, H.2.1, H.2.2.1⟩

/-- Claim C3: an attempt that fails with a rate-limit signal mandating a
wait of `w` seconds is followed by a sleep of exactly `w + 1` seconds,
after which the loop continues at attempt `a + 1` with one fewer
iteration left (the rate-limited attempt consumed one of the `max_retry`
attempts); and a generic failure of a reached attempt `b` is always
followed by a sleep of `2 ^ b` seconds — a function of the attempt number
alone, unaffected by how many rate-limit waits preceded it. -/
theorem claim_c3_ratelimit_wait (o : Nat → Outcome) (s t m h : String)
    (r a b w : Nat) (e : String) :
    (1 ≤ a → a ≤ r → (∀ j, 1 ≤ j → j < a → o j ≠ .success) → o a = .floodWait w →
      ∃ pre, forward_with_retry o s t m h r =
        pre ++ .attempt a :: .floodLog a m w :: .sleep (w + 1) ::
          forwardLoop o s t m h r (r - a) (a + 1)) ∧
    (1 ≤ b → b ≤ r → (∀ j, 1 ≤ j → j < b → o j ≠ .success) → o b = .generic e →
      ∃ pre, forward_with_retry o s t m h r =
        pre ++ .attempt b :: .errorLog b m e :: .sleep (2 ^ b) ::
          forwardLoop o s t m h r (r - b) (b + 1)) := by
  constructor
  · intro ha1 har hprev hflood
    obtain ⟨pre, hpre⟩ := forwardLoop_reach o s t m h r r 1 a ha1 (by omega) hprev
    have hm : r - (a - 1) = (r - a) + 1 := by omega
    rw [hm] at hpre
    refine ⟨pre, ?_⟩
    rw [forward_with_retry, hpre]
    simp [forwardLoop, hflood]
  · intro hb1 hbr hprev hgen
    obtain ⟨pre, hpre⟩ := forwardLoop_reach o s t m h r r 1 b hb1 (by omega) hprev
    have hm : r - (b - 1) = (r - b) + 1 := by omega
    rw [hm] at hpre
    refine ⟨pre, ?_⟩
    rw [forward_with_retry, hpre]
    simp [forwardLoop, hgen]

/-- Claim C3, instantiated: a rate-limit mandating 7s on the first of two
attempts yields a sleep of exactly 8 seconds and a retry at attempt 2;
and in the scenario oracle the generic failure of attempt 1 yields a
sleep of `2 ^ 1` seconds regardless of rate-limit history. -/
theorem claim_c3_ratelimit_wait_witness :
    (∃ pre, forward_with_retry floodOracle "s" "t" "9" "h" 2 =
      pre ++ .attempt 1 :: .floodLog 1 "9" 7 :: .sleep (7 + 1) ::
        forwardLoop floodOracle "s" "t" "9" "h" 2 (2 - 1) (1 + 1)) ∧
    (∃ pre, forward_with_retry scenarioOracle "src" "tgt" "42" "host" 3 =
      pre ++ .attempt 1 :: .errorLog 1 "42" "error one" :: .sleep (2 ^ 1) ::
        forwardLoop scenarioOracle "src" "tgt" "42" "host" 3 (3 - 1) (1 + 1)) := by
  constructor
  · exact (claim_c3_ratelimit_wait floodOracle "s" "t" "9" "h" 2 1 1 7 "x").1
      (by omega) (by omega) (by intro j h1 h2; omega) (by decide)
  · exact (claim_c3_ratelimit_wait scenarioOracle "src" "tgt" "42" "host" 3 1 1 0 "error one").2
      (by omega) (by omega) (by intro j h1 h2; omega) (by decide)

/-! ## Claims C4-C5: code self-upgrade -/

/-- Claim C4: starting from a present current artifact, the upgrade never
leaves the filesystem without a current code file (in every fault
scenario the final state still has one); and when the rotation fails at
its last step — the state in which a backup exists and no current
artifact exists — the backup is restored to the current path and the
operation surfaces the replace error. -/
theorem claim_c4_upgrade_rollback (url : String) (fetched : Except String String)
    (fl : Faults) (fs : FS) (cur : String) (hcur : fs.botFile = some cur) :
    ((safe_upgrade_from_raw url fetched fl fs).2.botFile.isSome = true) ∧
    (∀ text, url ≠ "" → fetched = .ok text → ¬(text = "" ∨ text.length < 20) →
      (fs.botBak.isSome = true → fl.failRemoveBak = false) →
      fl.failRenameToBak = false → fl.failRenameTmpToFile = true →
      safe_upgrade_from_raw url fetched fl fs =
        (.error .replaceFailed,
          { botFile := some cur, botBak := none, botTmp := some text })) := by
  obtain ⟨f, b, tp⟩ := fs
  simp only at hcur
  subst hcur
  constructor
  · by_cases hu : url = ""
    · simp [safe_upgrade_from_raw, hu]
    · cases fetched with
      | error e => simp [safe_upgrade_from_raw, hu]
      | ok text =>
        by_cases hsmall : text = "" ∨ text.length < 20
        · simp [safe_upgrade_from_raw, hu, hsmall]
        · rcases fl with ⟨f1, f2, f3⟩
          cases b <;> cases f1 <;> cases f2 <;> cases f3 <;>
            simp [safe_upgrade_from_raw, upgradeRotation, hu, hsmall]
  · intro text hu hf hsmall hbak hf2 hf3
    subst hf
    rcases fl with ⟨f1, f2, f3⟩
    simp only at hbak hf2 hf3
    subst hf2
    subst hf3
    cases b with
    | none => simp [safe_upgrade_from_raw, upgradeRotation, hu, hsmall]
    | some bk =>
      have hf1 : f1 = false := hbak rfl
      subst hf1
      simp [safe_upgrade_from_raw, upgradeRotation, hu, hsmall]

/-- Claim C4, instantiated: with a stale backup present, no fault on the
first two rotation steps and a fault on the final rename, the upgrade
reports the replace error with the original artifact restored; and the
final state still has a current code file. -/
theorem claim_c4_upgrade_rollback_witness :
    safe_upgrade_from_raw "https://raw/bot.py" (.ok "0123456789abcdefghij")
        ⟨false, false, true⟩ ⟨some "old code", some "stale bak", none⟩ =
      (.error .replaceFailed,
        { botFile := some "old code", botBak := none,
          botTmp := some "0123456789abcdefghij" }) ∧
    ((safe_upgrade_from_raw "https://raw/bot.py" (.ok "0123456789abcdefghij")
        ⟨false, false, true⟩ ⟨some "old code", some "stale bak", none⟩).2.botFile.isSome = true) := by
  have H := claim_c4_upgrade_rollback "https://raw/bot.py" (.ok "0123456789abcdefghij")
    ⟨false, false, true⟩ ⟨some "old code", some "stale bak", none⟩ "old code" rfl
  exact ⟨H.2 "0123456789abcdefghij" (by decide) rfl (by decide) (fun _ => rfl) rfl rfl, H.1⟩

/-- Claim C5: a fetched artifact that is empty or shorter than 20
characters makes the upgrade fail with the too-small error and leaves the
filesystem state exactly as it was — no temp write, no rotation. -/
theorem claim_c5_small_artifact (url : String) (fl : Faults) (fs : FS) (text : String)
    (hurl : url ≠ "") (hsmall : text = "" ∨ text.length < 20) :
    safe_upgrade_from_raw url (.ok text) fl fs = (.error .tooSmall, fs) := by
  simp [safe_upgrade_from_raw, hurl, hsmall]

/-- Claim C5, instantiated: a 5-character artifact is rejected and the
filesystem (current file and backup) is untouched. -/
theorem claim_c5_small_artifact_witness :
    safe_upgrade_from_raw "https://raw/bot.py" (.ok "short") ⟨false, false, false⟩
        ⟨some "old code", some "old bak", none⟩ =
      (.error .tooSmall, ⟨some "old code", some "old bak", none⟩) :=
  claim_c5_small_artifact "https://raw/bot.py" ⟨false, false, false⟩
    ⟨some "old code", some "old bak", none⟩ "short" (by decide) (by decide)

/-! ## Key-order independence of the canonical serialization -/

/-- Strings with equal character data are equal. -/
theorem string_eq_of_data_eq (a b : String) (h : a.data = b.data) : a = b := by
  cases a
  cases b
  exact congrArg String.mk h

/-- Key order together with key distinctness; used to identify the two
sorted renderings of a duplicate-free document. -/
def keyLEne (a b : String × String) : Prop := keyLE a b ∧ a.1 ≠ b.1

instance : IsAntisymm (String × String) keyLEne :=
  ⟨fun a b h1 h2 => absurd (string_eq_of_data_eq a.1 b.1 (le_antisymm h1.1 h2.1)) h1.2⟩

/-- `dumpsObj` renders each pair's value, keeping its key. -/
theorem dumpsObj_eq_map : (o : JObj) →
    dumpsObj o = (jobjToList o).map (fun p => (p.1, dumpsSorted p.2))
  | .nil => rfl
  | .cons k v tl => by
      simp only [dumpsObj, jobjToList, List.map_cons]
      exact congrArg _ (dumpsObj_eq_map tl)
termination_by structural o => o

/-- Reordering the pairs of a duplicate-free object does not change its
canonical serialization: `sort_keys=True` makes the rendering
key-order-independent. -/
theorem dumpsSorted_key_order_invariant (o1 o2 : JObj)
    (hperm : (jobjToList o1).Perm (jobjToList o2))
    (hnodup : ((jobjToList o1).map Prod.fst).Nodup) :
    dumpsSorted (.jobj o1) = dumpsSorted (.jobj o2) := by
  have hmapperm : (dumpsObj o1).Perm (dumpsObj o2) := by
    rw [dumpsObj_eq_map, dumpsObj_eq_map]
    exact hperm.map _
  have hkeys1 : (dumpsObj o1).map Prod.fst = (jobjToList o1).map Prod.fst := by
    rw [dumpsObj_eq_map, List.map_map]
    rfl
  have hp1 := List.perm_insertionSort keyLE (dumpsObj o1)
  have hp2 := List.perm_insertionSort keyLE (dumpsObj o2)
  have hs12 : (List.insertionSort keyLE (dumpsObj o1)).Perm
      (List.insertionSort keyLE (dumpsObj o2)) :=
    hp1.trans (hmapperm.trans hp2.symm)
  have hsorted1 := List.sorted_insertionSort keyLE (dumpsObj o1)
  have hsorted2 := List.sorted_insertionSort keyLE (dumpsObj o2)
  have hnd1 : ((dumpsObj o1).map Prod.fst).Nodup := by
    rw [hkeys1]
    exact hnodup
  have hnds1 : ((List.insertionSort keyLE (dumpsObj o1)).map Prod.fst).Nodup :=
    ((hp1.map Prod.fst).nodup_iff).mpr hnd1
  have hnds2 : ((List.insertionSort keyLE (dumpsObj o2)).map Prod.fst).Nodup :=
    ((hs12.map Prod.fst).nodup_iff).mp hnds1
  have hpair1 : (List.insertionSort keyLE (dumpsObj o1)).Pairwise keyLEne := by
    have hne := List.pairwise_map.mp hnds1
    exact (hsorted1.and hne).imp (fun hx => hx)
  have hpair2 : (List.insertionSort keyLE (dumpsObj o2)).Pairwise keyLEne := by
    have hne := List.pairwise_map.mp hnds2
    exact (hsorted2.and hne).imp (fun hx => hx)
  have hsort_eq : List.insertionSort keyLE (dumpsObj o1) =
      List.insertionSort keyLE (dumpsObj o2) :=
    List.eq_of_perm_of_sorted hs12 hpair1 hpair2
  simp only [dumpsSorted]
  rw [hsort_eq]

/-! ## Fixtures: concrete configuration documents -/

/-- A valid configuration document: truthy credentials, non-null channels,
a configured remote-config URL. -/
def cfgDoc : JObj :=
  .cons "api_id" (.jnum 1)
    (.cons "api_hash" (.jstr "hash")
      (.cons "source_channel" (.jnum 10)
        (.cons "target_channel" (.jnum 11)
          (.cons "log_channel" (.jnum 12)
            (.cons "config_raw_url" (.jstr "https://raw/config.json") .nil)))))

/-- The in-memory state obtained from loading `cfgDoc` at startup. -/
def st0 : BotState :=
  { config := cfgDoc
    API_ID := .jnum 1
    API_HASH := .jstr "hash"
    SESSION_NAME := .jstr "forward_session"
    SOURCE_CHANNEL := .jnum 10
    TARGET_CHANNEL := .jnum 11
    LOG_CHANNEL := .jnum 12
    CONFIG_RAW_URL := .jstr "https://raw/config.json"
    BOT_RAW_URL := .jstr ""
    AUTO_UPDATE_HOURS := .jnum 3
    ADMIN_USER_IDS := .jarr .nil
    VIDEOS := .jarr .nil
    RETRY_MAX := .jnum 3 }

/-- A two-key document. -/
def permDocA : JObj := .cons "a" (.jnum 1) (.cons "b" (.jnum 2) .nil)

/-- The same document with its keys in the opposite order. -/
def permDocB : JObj := .cons "b" (.jnum 2) (.cons "a" (.jnum 1) .nil)

/-- A remote document that sets only the auto-update interval (to 5). -/
def cfgDocHours : JObj := .cons "auto_update_hours" (.jnum 5) .nil

/-- A remote document that explicitly sets the source channel to `null`. -/
def cfgDocNull : JObj := .cons "source_channel" .jnull .nil

/-! ## Claim C6: scheduled comparison, manual unconditional write -/

/-- Claim C6: the scheduled refresh compares the canonical
(key-order-independent) serializations of the fetched and on-disk
documents — identical means no write and no in-memory apply (a no-op),
different means write and apply; permuting the keys of a duplicate-free
document never changes the canonical serialization; and the manual
`/update` path performs no comparison: it writes and applies
unconditionally. -/
theorem claim_c6_scheduled_comparison (st : BotState) (disk newCfg : JObj)
    (sid : Option Int) :
    (pyTruthy st.CONFIG_RAW_URL = true →
      dumpsSorted (.jobj newCfg) = dumpsSorted (.jobj disk) →
      auto_tasks_step st disk (.ok newCfg) = (st, disk, false)) ∧
    (pyTruthy st.CONFIG_RAW_URL = true →
      dumpsSorted (.jobj newCfg) ≠ dumpsSorted (.jobj disk) →
      auto_tasks_step st disk (.ok newCfg) =
        (applyConfigScheduled st newCfg, newCfg, true)) ∧
    (∀ o1 o2 : JObj, (jobjToList o1).Perm (jobjToList o2) →
      ((jobjToList o1).map Prod.fst).Nodup →
      dumpsSorted (.jobj o1) = dumpsSorted (.jobj o2)) ∧
    (¬(pyTruthy st.ADMIN_USER_IDS = true ∧
        pyIn (senderToJVal sid) st.ADMIN_USER_IDS = false) →
      pyTruthy st.CONFIG_RAW_URL = true →
      cmd_update st disk sid (.ok newCfg) =
        ([.fetchingConfig, .configUpdated], applyConfigManual st newCfg, newCfg)) := by
  refine ⟨?_, ?_, ?_, ?_⟩
  · intro hurl heq
    simp [auto_tasks_step, hurl, heq]
  · intro hurl hne
    simp [auto_tasks_step, hurl, hne]
  · exact fun o1 o2 hperm hnodup => dumpsSorted_key_order_invariant o1 o2 hperm hnodup
  · intro hauth hurl
    simp [cmd_update, hauth, hurl]

/-- Claim C6, instantiated: refreshing with the identical document is a
no-op; refreshing with a different document writes it and applies the
scheduled merge; swapping the keys of a two-key document preserves the
canonical serialization; and the manual path writes even when fed the
document already on disk. -/
theorem claim_c6_scheduled_comparison_witness :
    auto_tasks_step st0 cfgDoc (.ok cfgDoc) = (st0, cfgDoc, false) ∧
    auto_tasks_step st0 cfgDoc (.ok cfgDocHours) =
      (applyConfigScheduled st0 cfgDocHours, cfgDocHours, true) ∧
    dumpsSorted (.jobj permDocA) = dumpsSorted (.jobj permDocB) ∧
    cmd_update st0 cfgDoc none (.ok cfgDoc) =
      ([.fetchingConfig, .configUpdated], applyConfigManual st0 cfgDoc, cfgDoc) := by
  refine ⟨?_, ?_, ?_, ?_⟩
  · exact (claim_c6_scheduled_comparison st0 cfgDoc cfgDoc none).1 (by decide) rfl
  · exact (claim_c6_scheduled_comparison st0 cfgDoc cfgDocHours none).2.1
      (by decide) (by decide)
  · exact (claim_c6_scheduled_comparison st0 cfgDoc cfgDoc none).2.2.1
      permDocA permDocB (by decide) (by decide)
  · exact (claim_c6_scheduled_comparison st0 cfgDoc cfgDoc none).2.2.2
      (by decide) (by decide)

/-! ## Inversion of the startup load -/

/-- Inverting a successful startup load: the sanity checks passed and each
in-memory field equals the corresponding `get` from the document. -/
theorem startupLoad_ok (doc : JObj) (st : BotState) (h : startupLoad doc = .ok st) :
    pyTruthy st.API_ID = true ∧ pyTruthy st.API_HASH = true ∧
    st.SOURCE_CHANNEL ≠ .jnull ∧ st.TARGET_CHANNEL ≠ .jnull ∧ st.LOG_CHANNEL ≠ .jnull ∧
    st.config = doc ∧
    st.API_ID = dictGet doc "api_id" .jnull ∧
    st.API_HASH = dictGet doc "api_hash" .jnull ∧
    st.SESSION_NAME = dictGet doc "session_name" (.jstr "forward_session") ∧
    st.SOURCE_CHANNEL = dictGet doc "source_channel" .jnull ∧
    st.TARGET_CHANNEL = dictGet doc "target_channel" .jnull ∧
    st.LOG_CHANNEL = dictGet doc "log_channel" .jnull ∧
    st.CONFIG_RAW_URL = dictGet doc "config_raw_url" (.jstr "") ∧
    st.BOT_RAW_URL = dictGet doc "bot_raw_url" (.jstr "") ∧
    st.AUTO_UPDATE_HOURS = dictGet doc "auto_update_hours" (.jnum 3) ∧
    st.ADMIN_USER_IDS = dictGet doc "admin_user_ids" (.jarr .nil) ∧
    st.VIDEOS = dictGet doc "youtube_links" (.jarr .nil) ∧
    st.RETRY_MAX = dictGet doc "max_retry" (.jnum 3) := by
  by_cases h1 : pyTruthy (dictGet doc "api_id" .jnull) = false ∨
      pyTruthy (dictGet doc "api_hash" .jnull) = false
  · simp [startupLoad, h1] at h
  · by_cases h2 : dictGet doc "source_channel" .jnull = .jnull ∨
        dictGet doc "target_channel" .jnull = .jnull ∨
        dictGet doc "log_channel" .jnull = .jnull
    · simp [startupLoad, h1, h2] at h
    · have h1a : pyTruthy (dictGet doc "api_id" .jnull) = true := by
        cases hb : pyTruthy (dictGet doc "api_id" .jnull) with
        | true => rfl
        | false => exact absurd (Or.inl hb) h1
      have h1b : pyTruthy (dictGet doc "api_hash" .jnull) = true := by
        cases hb : pyTruthy (dictGet doc "api_hash" .jnull) with
        | true => rfl
        | false => exact absurd (Or.inr hb) h1
      have h2a : dictGet doc "source_channel" .jnull ≠ .jnull := fun hc => h2 (Or.inl hc)
      have h2b : dictGet doc "target_channel" .jnull ≠ .jnull := fun hc => h2 (Or.inr (Or.inl hc))
      have h2c : dictGet doc "log_channel" .jnull ≠ .jnull := fun hc => h2 (Or.inr (Or.inr hc))
      simp [startupLoad, h1, h2] at h
      subst h
      exact ⟨h1a, h1b, h2a, h2b, h2c, rfl, rfl, rfl, rfl, rfl, rfl, rfl, rfl, rfl, rfl, rfl,
        rfl, rfl⟩

/-! ## Claim C7 (corrected): merge-on-apply and the auto-update interval -/

/-- Claim C7 as stated is false: the scheduled apply path does write the
new document (here specifying `auto_update_hours = 5`) yet leaves the
in-memory auto-update interval at its prior value 3 — the `global` list
of `auto_tasks` omits `AUTO_UPDATE_HOURS`. -/
theorem claim_c7_merge_on_apply_cex :
    (auto_tasks_step st0 cfgDoc (.ok cfgDocHours)).2.2 = true ∧
    jobjLookup cfgDocHours "auto_update_hours" = some (.jnum 5) ∧
    (auto_tasks_step st0 cfgDoc (.ok cfgDocHours)).1.AUTO_UPDATE_HOURS = .jnum 3 ∧
    (JVal.jnum 3) ≠ (.jnum 5) := by
  refine ⟨by decide, by decide, by decide, by decide⟩

/-- Claim C7, amended: after a successful apply, every named field
specified in the new document takes the new value and every unspecified
field keeps its prior value, for the six fields of the manual path and
the five fields of the scheduled path; but the auto-update interval is
refreshed only by the manual `/update` apply — the scheduled apply always
leaves it unchanged. -/
theorem claim_c7_merge_on_apply (st : BotState) (new : JObj) :
    (∀ v, jobjLookup new "source_channel" = some v →
      (applyConfigManual st new).SOURCE_CHANNEL = v) ∧
    (jobjLookup new "source_channel" = none →
      (applyConfigManual st new).SOURCE_CHANNEL = st.SOURCE_CHANNEL) ∧
    (∀ v, jobjLookup new "target_channel" = some v →
      (applyConfigManual st new).TARGET_CHANNEL = v) ∧
    (jobjLookup new "target_channel" = none →
      (applyConfigManual st new).TARGET_CHANNEL = st.TARGET_CHANNEL) ∧
    (∀ v, jobjLookup new "log_channel" = some v →
      (applyConfigManual st new).LOG_CHANNEL = v) ∧
    (jobjLookup new "log_channel" = none →
      (applyConfigManual st new).LOG_CHANNEL = st.LOG_CHANNEL) ∧
    (∀ v, jobjLookup new "youtube_links" = some v →
      (applyConfigManual st new).VIDEOS = v) ∧
    (jobjLookup new "youtube_links" = none →
      (applyConfigManual st new).VIDEOS = st.VIDEOS) ∧
    (∀ v, jobjLookup new "max_retry" = some v →
      (applyConfigManual st new).RETRY_MAX = v) ∧
    (jobjLookup new "max_retry" = none →
      (applyConfigManual st new).RETRY_MAX = st.RETRY_MAX) ∧
    (∀ v, jobjLookup new "auto_update_hours" = some v →
      (applyConfigManual st new).AUTO_UPDATE_HOURS = v) ∧
    (jobjLookup new "auto_update_hours" = none →
      (applyConfigManual st new).AUTO_UPDATE_HOURS = st.AUTO_UPDATE_HOURS) ∧
    (∀ v, jobjLookup new "source_channel" = some v →
      (applyConfigScheduled st new).SOURCE_CHANNEL = v) ∧
    (jobjLookup new "source_channel" = none →
      (applyConfigScheduled st new).SOURCE_CHANNEL = st.SOURCE_CHANNEL) ∧
    (∀ v, jobjLookup new "target_channel" = some v →
      (applyConfigScheduled st new).TARGET_CHANNEL = v) ∧
    (jobjLookup new "target_channel" = none →
      (applyConfigScheduled st new).TARGET_CHANNEL = st.TARGET_CHANNEL) ∧
    (∀ v, jobjLookup new "log_channel" = some v →
      (applyConfigScheduled st new).LOG_CHANNEL = v) ∧
    (jobjLookup new "log_channel" = none →
      (applyConfigScheduled st new).LOG_CHANNEL = st.LOG_CHANNEL) ∧
    (∀ v, jobjLookup new "youtube_links" = some v →
      (applyConfigScheduled st new).VIDEOS = v) ∧
    (jobjLookup new "youtube_links" = none →
      (applyConfigScheduled st new).VIDEOS = st.VIDEOS) ∧
    (∀ v, jobjLookup new "max_retry" = some v →
      (applyConfigScheduled st new).RETRY_MAX = v) ∧
    (jobjLookup new "max_retry" = none →
      (applyConfigScheduled st new).RETRY_MAX = st.RETRY_MAX) ∧
    (applyConfigScheduled st new).AUTO_UPDATE_HOURS = st.AUTO_UPDATE_HOURS := by
  refine ⟨?_, ?_, ?_, ?_, ?_, ?_, ?_, ?_, ?_, ?_, ?_, ?_, ?_, ?_, ?_, ?_, ?_, ?_, ?_, ?_,
    ?_, ?_, ?_⟩ <;>
    first
      | (intro v hv
         simp [applyConfigManual, applyConfigScheduled, dictGet, hv])
      | (intro hv
         simp [applyConfigManual, applyConfigScheduled, dictGet, hv])
      | simp [applyConfigScheduled]

/-- Claim C7 (amended), instantiated: applying the document that sets the
interval to 5 — the manual apply refreshes it to 5, the scheduled apply
keeps the prior 3, and an unspecified field (the source channel) keeps
its prior value. -/
theorem claim_c7_merge_on_apply_witness :
    (applyConfigManual st0 cfgDocHours).AUTO_UPDATE_HOURS = .jnum 5 ∧
    (applyConfigScheduled st0 cfgDocHours).AUTO_UPDATE_HOURS = .jnum 3 ∧
    (applyConfigManual st0 cfgDocHours).SOURCE_CHANNEL = st0.SOURCE_CHANNEL := by
  have H := claim_c7_merge_on_apply st0 cfgDocHours
  refine ⟨H.2.2.2.2.2.2.2.2.2.2.1 (.jnum 5) rfl, ?_, H.2.1 rfl⟩
  have h := H.2.2.2.2.2.2.2.2.2.2.2.2.2.2.2.2.2.2.2.2.2.2
  simpa using h

/-! ## Claim C8 (corrected): config validation invariant -/

/-- Claim C8 as stated is false: starting from the validated state loaded
from `cfgDoc`, a manual `/update` whose fetched document explicitly maps
`source_channel` to `null` replaces the config and leaves readers seeing
a `null` source channel — the update paths re-run no validation, and
`config.get(key, prior)` returns the stored `null` when the key is
present. -/
theorem claim_c8_validated_invariant_cex :
    startupLoad cfgDoc = .ok st0 ∧
    st0.SOURCE_CHANNEL ≠ .jnull ∧
    (cmd_update st0 cfgDoc none (.ok cfgDocNull)).2.1.SOURCE_CHANNEL = .jnull := by
  refine ⟨rfl, by decide, by decide⟩

/-- Claim C8, amended: startup validation does establish truthy
credentials and non-null channels; and both apply paths preserve
non-null channels (keeping the credentials untouched) provided the new
document does not explicitly map a channel key to `null` — absent keys
inherit the prior validated values. -/
theorem claim_c8_validated_invariant (doc new : JObj) (st st2 : BotState) :
    (startupLoad doc = .ok st →
      pyTruthy st.API_ID = true ∧ pyTruthy st.API_HASH = true ∧
      st.SOURCE_CHANNEL ≠ .jnull ∧ st.TARGET_CHANNEL ≠ .jnull ∧
      st.LOG_CHANNEL ≠ .jnull) ∧
    (st2.SOURCE_CHANNEL ≠ .jnull → st2.TARGET_CHANNEL ≠ .jnull →
      st2.LOG_CHANNEL ≠ .jnull →
      (∀ v, jobjLookup new "source_channel" = some v → v ≠ .jnull) →
      (∀ v, jobjLookup new "target_channel" = some v → v ≠ .jnull) →
      (∀ v, jobjLookup new "log_channel" = some v → v ≠ .jnull) →
      ((applyConfigManual st2 new).SOURCE_CHANNEL ≠ .jnull ∧
        (applyConfigManual st2 new).TARGET_CHANNEL ≠ .jnull ∧
        (applyConfigManual st2 new).LOG_CHANNEL ≠ .jnull ∧
        (applyConfigScheduled st2 new).SOURCE_CHANNEL ≠ .jnull ∧
        (applyConfigScheduled st2 new).TARGET_CHANNEL ≠ .jnull ∧
        (applyConfigScheduled st2 new).LOG_CHANNEL ≠ .jnull ∧
        (applyConfigManual st2 new).API_ID = st2.API_ID ∧
        (applyConfigManual st2 new).API_HASH = st2.API_HASH)) := by
  constructor
  · intro h
    obtain ⟨h1, h2, h3, h4, h5, -⟩ := startupLoad_ok doc st h
    exact ⟨h1, h2, h3, h4, h5⟩
  · intro hs ht hl hvs hvt hvl
    have key : ∀ (k : String) (d : JVal), d ≠ .jnull →
        (∀ v, jobjLookup new k = some v → v ≠ .jnull) →
        dictGet new k d ≠ .jnull := by
      intro k d hd hv
      rcases hlk : jobjLookup new k with _ | v
      · simpa [dictGet, hlk] using hd
      · simpa [dictGet, hlk] using hv v hlk
    refine ⟨?_, ?_, ?_, ?_, ?_, ?_, rfl, rfl⟩ <;>
      first
        | simpa [applyConfigManual, applyConfigScheduled] using key _ _ hs hvs
        | simpa [applyConfigManual, applyConfigScheduled] using key _ _ ht hvt
        | simpa [applyConfigManual, applyConfigScheduled] using key _ _ hl hvl

/-- Claim C8 (amended), instantiated: loading `cfgDoc` validates, and an
applied document that only changes the interval (channel keys absent)
preserves the non-null channels. -/
theorem claim_c8_validated_invariant_witness :
    st0.SOURCE_CHANNEL ≠ .jnull ∧
    (applyConfigManual st0 cfgDocHours).SOURCE_CHANNEL ≠ .jnull ∧
    (applyConfigScheduled st0 cfgDocHours).LOG_CHANNEL ≠ .jnull := by
  have H := claim_c8_validated_invariant cfgDoc cfgDocHours st0 st0
  have H1 := H.1 rfl
  have H2 := H.2 (by decide) (by decide) (by decide)
    (fun v h => Option.noConfusion h) (fun v h => Option.noConfusion h)
    (fun v h => Option.noConfusion h)
  exact ⟨H1.2.2.1, H2.1, H2.2.2.2.2.2.1⟩

/-! ## Claim C9: admin gating -/

/-- Claim C9: with a non-empty admin list, a sender not in the list gets
exactly the authorization rejection and no state change from `/update`
(config and disk unchanged), `/upgrade` (filesystem unchanged, no
restart) and `/stop` (no disconnect); with an empty admin list, none of
the three commands ever replies with the rejection. -/
theorem claim_c9_admin_gate (st : BotState) (disk : JObj) (fs : FS) (sid : Option Int)
    (remote : Except String JObj) (fetched : Except String String) (fl : Faults) :
    (pyTruthy st.ADMIN_USER_IDS = true →
      pyIn (senderToJVal sid) st.ADMIN_USER_IDS = false →
      cmd_update st disk sid remote = ([.notAuthorized], st, disk) ∧
      cmd_upgrade st fs sid fetched fl = ([.notAuthorized], fs, false) ∧
      cmd_stop st sid = ([.notAuthorized], false)) ∧
    (st.ADMIN_USER_IDS = .jarr .nil →
      Reply.notAuthorized ∉ (cmd_update st disk sid remote).1 ∧
      Reply.notAuthorized ∉ (cmd_upgrade st fs sid fetched fl).1 ∧
      Reply.notAuthorized ∉ (cmd_stop st sid).1) := by
  constructor
  · intro h1 h2
    refine ⟨?_, ?_, ?_⟩ <;> simp [cmd_update, cmd_upgrade, cmd_stop, h1, h2]
  · intro hempty
    have hfalse : pyTruthy (.jarr .nil) = false := rfl
    refine ⟨?_, ?_, ?_⟩
    · by_cases hurl : pyTruthy st.CONFIG_RAW_URL = false
      · simp [cmd_update, hempty, hurl, hfalse]
      · cases remote with
        | error e => simp [cmd_update, hempty, hurl, hfalse]
        | ok newCfg => simp [cmd_update, hempty, hurl, hfalse]
    · by_cases hurl : pyTruthy st.BOT_RAW_URL = false
      · simp [cmd_upgrade, hempty, hurl, hfalse]
      · rcases hsu : safe_upgrade_from_raw (jvalStr st.BOT_RAW_URL) fetched fl fs with ⟨res, fs1⟩
        cases res with
        | ok u => simp [cmd_upgrade, hempty, hurl, hfalse, hsu]
        | error e => simp [cmd_upgrade, hempty, hurl, hfalse, hsu]
    · simp [cmd_stop, hempty, hfalse]

/-- Claim C9, instantiated: with admin list `[1]` and sender 2, all three
commands reject and change nothing; with the empty admin list of `st0`,
sender 2 never sees the rejection. -/
theorem claim_c9_admin_gate_witness :
    (cmd_update { st0 with ADMIN_USER_IDS := .jarr (.cons (.jnum 1) .nil) } cfgDoc
        (some 2) (.ok cfgDocHours) =
      ([.notAuthorized], { st0 with ADMIN_USER_IDS := .jarr (.cons (.jnum 1) .nil) },
        cfgDoc) ∧
      cmd_upgrade { st0 with ADMIN_USER_IDS := .jarr (.cons (.jnum 1) .nil) }
        ⟨some "old", none, none⟩ (some 2) (.ok "text") ⟨false, false, false⟩ =
      ([.notAuthorized], ⟨some "old", none, none⟩, false) ∧
      cmd_stop { st0 with ADMIN_USER_IDS := .jarr (.cons (.jnum 1) .nil) } (some 2) =
      ([.notAuthorized], false)) ∧
    Reply.notAuthorized ∉ (cmd_update st0 cfgDoc (some 2) (.ok cfgDocHours)).1 := by
  constructor
  · exact (claim_c9_admin_gate { st0 with ADMIN_USER_IDS := .jarr (.cons (.jnum 1) .nil) }
      cfgDoc ⟨some "old", none, none⟩ (some 2) (.ok cfgDocHours) (.ok "text")
      ⟨false, false, false⟩).1 (by decide) (by decide)
  · exact ((claim_c9_admin_gate st0 cfgDoc ⟨some "old", none, none⟩ (some 2)
      (.ok cfgDocHours) (.ok "text") ⟨false, false, false⟩).2 rfl).1

/-! ## Claim C10: frame of the manual update -/

/-- Claim C10: a successful manual `/update` refreshes in memory exactly
the raw config mapping, the three channel ids, the video list, the retry
ceiling and the auto-update interval; the in-memory admin list, API
credentials, session name and the two remote URLs are unchanged whatever
the new document holds, and a restart (re-running startup on the newly
written document) is what makes those take effect. -/
theorem claim_c10_update_frame (st : BotState) (disk : JObj) (sid : Option Int) (new : JObj)
    (hauth : ¬(pyTruthy st.ADMIN_USER_IDS = true ∧
        pyIn (senderToJVal sid) st.ADMIN_USER_IDS = false))
    (hurl : pyTruthy st.CONFIG_RAW_URL = true) :
    cmd_update st disk sid (.ok new) =
      ([.fetchingConfig, .configUpdated], applyConfigManual st new, new) ∧
    (applyConfigManual st new).ADMIN_USER_IDS = st.ADMIN_USER_IDS ∧
    (applyConfigManual st new).API_ID = st.API_ID ∧
    (applyConfigManual st new).API_HASH = st.API_HASH ∧
    (applyConfigManual st new).SESSION_NAME = st.SESSION_NAME ∧
    (applyConfigManual st new).CONFIG_RAW_URL = st.CONFIG_RAW_URL ∧
    (applyConfigManual st new).BOT_RAW_URL = st.BOT_RAW_URL ∧
    (applyConfigManual st new).config = new ∧
    (applyConfigManual st new).SOURCE_CHANNEL =
      dictGet new "source_channel" st.SOURCE_CHANNEL ∧
    (applyConfigManual st new).TARGET_CHANNEL =
      dictGet new "target_channel" st.TARGET_CHANNEL ∧
    (applyConfigManual st new).LOG_CHANNEL = dictGet new "log_channel" st.LOG_CHANNEL ∧
    (applyConfigManual st new).VIDEOS = dictGet new "youtube_links" st.VIDEOS ∧
    (applyConfigManual st new).RETRY_MAX = dictGet new "max_retry" st.RETRY_MAX ∧
    (applyConfigManual st new).AUTO_UPDATE_HOURS =
      dictGet new "auto_update_hours" st.AUTO_UPDATE_HOURS ∧
    (∀ st2, startupLoad new = .ok st2 →
      st2.ADMIN_USER_IDS = dictGet new "admin_user_ids" (.jarr .nil) ∧
      st2.API_ID = dictGet new "api_id" .jnull ∧
      st2.API_HASH = dictGet new "api_hash" .jnull ∧
      st2.SESSION_NAME = dictGet new "session_name" (.jstr "forward_session") ∧
      st2.CONFIG_RAW_URL = dictGet new "config_raw_url" (.jstr "") ∧
      st2.BOT_RAW_URL = dictGet new "bot_raw_url" (.jstr "")) := by
  refine ⟨by simp [cmd_update, hauth, hurl], rfl, rfl, rfl, rfl, rfl, rfl, rfl, rfl, rfl,
    rfl, rfl, rfl, rfl, ?_⟩
  intro st2 h
  obtain ⟨-, -, -, -, -, -, h7, h8, h9, -, -, -, h13, h14, -, h16, -, -⟩ :=
    startupLoad_ok new st2 h
  exact ⟨h16, h7, h8, h9, h13, h14⟩

/-- Claim C10, instantiated: updating `st0` with the interval-only
document changes the interval but leaves the admin list, credentials,
session name and URLs untouched. -/
theorem claim_c10_update_frame_witness :
    cmd_update st0 cfgDoc none (.ok cfgDocHours) =
      ([.fetchingConfig, .configUpdated], applyConfigManual st0 cfgDocHours, cfgDocHours) ∧
    (applyConfigManual st0 cfgDocHours).ADMIN_USER_IDS = st0.ADMIN_USER_IDS ∧
    (applyConfigManual st0 cfgDocHours).API_ID = st0.API_ID := by
  have H := claim_c10_update_frame st0 cfgDoc none cfgDocHours (by decide) (by decide)
  exact ⟨H.1, H.2.1, H.2.2.1⟩
